import Mathlib

/-!
Shallow embedding of the Mitama conflict-resolution and reputation engine
(src/programs/mitama/src/lib.rs) and proofs about its documented behavior.

Modelling conventions:
- Pubkeys are modelled as natural numbers (only equality of keys matters).
- u64 / u16 / u8 machine integers are modelled as Nat; saturating operations
  clamp explicitly, wrapping casts and multiplications take an explicit `% 2^w`.
- i64 timestamps are modelled as Int; the on-chain clock is passed explicitly.
- Fallible instructions return `Except MitamaError`; the Anchor `require!`
  chains are translated in source order.
- The external ed25519 signature verification is an external capability; it is
  modelled as a boolean input to `resolve_dispute`.
- Rust `sort_unstable` on a `Vec<u8>` is modelled by an insertion sort
  (extensionally the same total-order ascending sort on Nat).
-/

namespace Mitama

/-- 2^64, size of the u64 value space. -/
def U64_SIZE : Nat := 18446744073709551616

/-- 2^64 - 1, the saturation bound of u64 arithmetic. -/
def U64_MAX : Nat := 18446744073709551615

/-- 2^16, size of the u16 value space (wrapping bound of u16 arithmetic). -/
def U16_SIZE : Nat := 65536

/-- u64 saturating_add. -/
def satAdd64 (a b : Nat) : Nat := min (a + b) U64_MAX

/-- u64 saturating_mul. -/
def satMul64 (a b : Nat) : Nat := min (a * b) U64_MAX

/-- u8 / u64 saturating_sub (on Nat, truncated subtraction is saturating). -/
def satSub (a b : Nat) : Nat := a - b

/-- BASE_DISPUTE_COST constant (lib.rs:55), 0.001 SOL in lamports. -/
def BASE_DISPUTE_COST : Nat := 1000000

/-- EscrowStatus enum (lib.rs:1186-1191). -/
inductive EscrowStatus where
  | Active
  | Released
  | Disputed
  | Resolved
deriving DecidableEq, Repr

/-- The MitamaError codes relevant to the engine (lib.rs:1230-1307). -/
inductive MitamaError where
  | InvalidStatus
  | Unauthorized
  | InvalidQualityScore
  | InvalidRefundPercentage
  | InvalidSignature
  | InvalidTimeLock
  | InvalidAmount
  | InvalidTransactionId
  | TimeLockNotExpired
  | DisputeWindowExpired
  | InsufficientDisputeFunds
  | ArithmeticOverflow
  | InsufficientOracleConsensus
  | NoConsensusReached
deriving DecidableEq, Repr

/-- EntityType enum (lib.rs:1212-1215). -/
inductive EntityType where
  | Agent
  | Provider
deriving DecidableEq, Repr

/-- AgentType enum (lib.rs:1121-1126). -/
inductive AgentType where
  | Trading
  | Service
  | Oracle
  | Custom
deriving DecidableEq, Repr

/-- EntityReputation account state (lib.rs:1196-1209).
Counter fields are u64, average_quality_received is u8, reputation_score is
u16; all modelled as Nat. -/
structure EntityReputation where
  entity : Nat
  entity_type : EntityType
  total_transactions : Nat
  disputes_filed : Nat
  disputes_won : Nat
  disputes_partial : Nat
  disputes_lost : Nat
  average_quality_received : Nat
  reputation_score : Nat
  created_at : Int
  last_updated : Int
deriving DecidableEq, Repr

/-- AgentIdentity account state (lib.rs:1104-1118). -/
structure AgentIdentity where
  owner : Nat
  name : String
  agent_type : AgentType
  reputation : Nat
  stake_amount : Nat
  is_active : Bool
  created_at : Int
  last_active : Int
  total_escrows : Nat
  successful_escrows : Nat
  disputed_escrows : Nat
deriving DecidableEq, Repr

/-- Escrow account state (lib.rs:1166-1183). -/
structure Escrow where
  agent : Nat
  api : Nat
  amount : Nat
  status : EscrowStatus
  created_at : Int
  expires_at : Int
  transaction_id : String
  quality_score : Option Nat
  refund_percentage : Option Nat
  token_mint : Option Nat
  token_decimals : Nat
deriving DecidableEq, Repr

/-- Insert into an ascending list, keeping it ascending. -/
def insertSorted (x : Nat) : List Nat → List Nat
  | [] => [x]
  | y :: ys => if x ≤ y then x :: y :: ys else y :: insertSorted x ys

/-- Ascending insertion sort; models `sorted.sort_unstable()` (lib.rs:213). -/
def sortScores : List Nat → List Nat
  | [] => []
  | x :: xs => insertSorted x (sortScores xs)

/-- calculate_consensus_score (lib.rs:209-232): sort, two-score average,
otherwise median, deviation filter, second median of the survivors. -/
def calculate_consensus_score (scores : List Nat) (max_deviation : Nat) :
    Except MitamaError Nat :=
  if scores.length < 2 then .error .InsufficientOracleConsensus
  else
    let sorted := sortScores scores
    if scores.length = 2 then
      .ok ((sorted[0]! + sorted[1]!) / 2)
    else
      let median := sorted[sorted.length / 2]!
      let valid := sorted.filter (fun score =>
        (if score > median then score - median else median - score) ≤ max_deviation)
      if valid.length < 2 then .error .NoConsensusReached
      else .ok valid[valid.length / 2]!

/-- The consensus reduction exactly as the specification words it for three or
more scores: middle sorted element as median, filter by absolute distance,
no-consensus error unless at least two survive, median of the filtered
subset. Written from the spec for comparison with the source function. -/
def consensusClaimSpec (scores : List Nat) (max_deviation : Nat) :
    Except MitamaError Nat :=
  let sorted := sortScores scores
  let median := sorted[sorted.length / 2]!
  let filtered := sorted.filter (fun score => Nat.dist score median ≤ max_deviation)
  if filtered.length < 2 then .error .NoConsensusReached
  else .ok filtered[filtered.length / 2]!

/-- calculate_refund_from_quality (lib.rs:234-242), the tiered settlement
table. Dead code in the source: no instruction calls it. -/
def calculate_refund_from_quality (quality_score : Nat) : Nat :=
  if quality_score ≤ 49 then 100
  else if quality_score ≤ 64 then 75
  else if quality_score ≤ 79 then 35
  else if quality_score ≤ 100 then 0
  else 0

/-- calculate_dispute_cost (lib.rs:244-256). The u64 product
`disputes_filed * 100` wraps modulo 2^64 (release-profile semantics). -/
def calculate_dispute_cost (reputation : EntityReputation) : Nat :=
  if reputation.total_transactions = 0 then BASE_DISPUTE_COST
  else
    let dispute_rate := reputation.disputes_filed * 100 % U64_SIZE /
      reputation.total_transactions
    let multiplier :=
      if dispute_rate ≤ 20 then 1
      else if dispute_rate ≤ 40 then 2
      else if dispute_rate ≤ 60 then 5
      else 10
    satMul64 BASE_DISPUTE_COST multiplier

/-- calculate_reputation_score (lib.rs:258-271). `win_rate as u16` truncates
modulo 2^16 and the u16 product by 3 wraps modulo 2^16. -/
def calculate_reputation_score (reputation : EntityReputation) : Nat :=
  if reputation.total_transactions = 0 then 500
  else
    let tx_score := min reputation.total_transactions 100 * 5
    let dispute_score :=
      if 0 < reputation.disputes_filed then
        let win_rate := reputation.disputes_won * 100 % U64_SIZE /
          reputation.disputes_filed
        min (win_rate % U16_SIZE * 3 % U16_SIZE) 300
      else 150
    let quality_component := min (reputation.average_quality_received * 2) 200
    min (tx_score + dispute_score + quality_component) 1000

/-- update_agent_reputation (lib.rs:282-306), the requester-side ledger rule.
Dead code in the source: no instruction calls it. -/
def update_agent_reputation (reputation : EntityReputation)
    (quality_score refund_percentage : Nat) (now : Int) : EntityReputation :=
  let tt := satAdd64 reputation.total_transactions 1
  let total_quality :=
    satAdd64 (satMul64 reputation.average_quality_received (satSub tt 1)) quality_score
  let rep1 := { reputation with
    total_transactions := tt
    average_quality_received := total_quality / tt % 256 }
  let rep2 :=
    if 75 ≤ refund_percentage then
      { rep1 with disputes_won := satAdd64 rep1.disputes_won 1 }
    else if 25 ≤ refund_percentage then
      { rep1 with disputes_partial := satAdd64 rep1.disputes_partial 1 }
    else
      { rep1 with disputes_lost := satAdd64 rep1.disputes_lost 1 }
  { rep2 with last_updated := now }

/-- update_api_reputation (lib.rs:308-332), the provider-side ledger rule.
Dead code in the source: no instruction calls it. -/
def update_api_reputation (reputation : EntityReputation)
    (refund_percentage : Nat) (now : Int) : EntityReputation :=
  let tt := satAdd64 reputation.total_transactions 1
  let quality_delivered := satSub 100 refund_percentage
  let total_quality :=
    satAdd64 (satMul64 reputation.average_quality_received (satSub tt 1)) quality_delivered
  let rep1 := { reputation with
    total_transactions := tt
    average_quality_received := total_quality / tt % 256 }
  let rep2 :=
    if refund_percentage ≤ 25 then
      { rep1 with disputes_won := satAdd64 rep1.disputes_won 1 }
    else if refund_percentage ≤ 75 then
      { rep1 with disputes_partial := satAdd64 rep1.disputes_partial 1 }
    else
      { rep1 with disputes_lost := satAdd64 rep1.disputes_lost 1 }
  { rep2 with last_updated := now }

/-- u128 checked_mul: fails (None) when the product exceeds the u128 range. -/
def checked_mul_u128 (a b : Nat) : Option Nat :=
  if a * b < 340282366920938463463374607431768211456 then some (a * b) else none

/-- u128 checked_div: fails only on a zero divisor. -/
def checked_div_u128 (a b : Nat) : Option Nat :=
  if b = 0 then none else some (a / b)

/-- The refund computation of resolve_dispute (lib.rs:707-711):
`(amount as u128).checked_mul(pct).checked_div(100) as u64`, each checked
failure mapped to ArithmeticOverflow, final cast truncating to u64. -/
def resolve_refund_amount (amount refund_percentage : Nat) : Except MitamaError Nat :=
  match checked_mul_u128 amount refund_percentage with
  | none => .error .ArithmeticOverflow
  | some p =>
    match checked_div_u128 p 100 with
    | none => .error .ArithmeticOverflow
    | some d => .ok (d % U64_SIZE)

/-- release_funds (lib.rs:568-641): status must be Active; a non-payer caller
needs the time lock expired (TimeLockNotExpired otherwise); a further
`is_agent || expired` check guards with Unauthorized; then the full amount is
transferred to the api and the status becomes Released. Returns the updated
escrow and the transferred amount. -/
def release_funds (escrow : Escrow) (caller : Nat) (now : Int) :
    Except MitamaError (Escrow × Nat) :=
  if escrow.status ≠ EscrowStatus.Active then .error .InvalidStatus
  else if caller ≠ escrow.agent ∧ now < escrow.expires_at then
    .error .TimeLockNotExpired
  else if ¬ (caller = escrow.agent ∨ escrow.expires_at ≤ now) then
    .error .Unauthorized
  else .ok ({ escrow with status := EscrowStatus.Released }, escrow.amount)

/-- mark_disputed (lib.rs:644-671): status Active, caller is the payer, the
dispute window is open, and the caller balance covers the dispute cost; the
cost is only compared against the balance, never deducted. Returns the
updated escrow, the updated reputation, and the caller balance after the
instruction (which the source never mutates). -/
def mark_disputed (escrow : Escrow) (reputation : EntityReputation)
    (caller : Nat) (caller_lamports : Nat) (now : Int) :
    Except MitamaError (Escrow × EntityReputation × Nat) :=
  if escrow.status ≠ EscrowStatus.Active then .error .InvalidStatus
  else if caller ≠ escrow.agent then .error .Unauthorized
  else if ¬ (now < escrow.expires_at) then .error .DisputeWindowExpired
  else if caller_lamports < calculate_dispute_cost reputation then
    .error .InsufficientDisputeFunds
  else
    .ok ({ escrow with status := EscrowStatus.Disputed },
         { reputation with disputes_filed := satAdd64 reputation.disputes_filed 1 },
         caller_lamports)

/-- The reputation mutation resolve_dispute performs inline on each party
(lib.rs:733-741): increment total_transactions, recompute reputation_score,
stamp last_updated — and nothing else. -/
def resolve_reputation_update (reputation : EntityReputation) (now : Int) :
    EntityReputation :=
  let rep1 := { reputation with
    total_transactions := satAdd64 reputation.total_transactions 1 }
  { rep1 with
    reputation_score := calculate_reputation_score rep1
    last_updated := now }

/-- Result of a successful resolve_dispute. -/
structure ResolveOutcome where
  escrow : Escrow
  agent_reputation : EntityReputation
  api_reputation : EntityReputation
  refund_amount : Nat
  payment_amount : Nat
deriving DecidableEq, Repr

/-- resolve_dispute (lib.rs:674-754): status Active or Disputed, quality and
refund percentage each at most 100, verified ed25519 signature (modelled by
the boolean input), then the checked refund split, the Resolved transition
with quality_score and refund_percentage recorded, and the inline reputation
updates of both parties. -/
def resolve_dispute (escrow : Escrow)
    (agent_reputation api_reputation : EntityReputation)
    (quality_score refund_percentage : Nat) (sig_valid : Bool) (now : Int) :
    Except MitamaError ResolveOutcome :=
  if ¬ (escrow.status = EscrowStatus.Active ∨ escrow.status = EscrowStatus.Disputed) then
    .error .InvalidStatus
  else if ¬ (quality_score ≤ 100) then .error .InvalidQualityScore
  else if ¬ (refund_percentage ≤ 100) then .error .InvalidRefundPercentage
  else if ¬ sig_valid then .error .InvalidSignature
  else
    match resolve_refund_amount escrow.amount refund_percentage with
    | .error e => .error e
    | .ok refund_amount =>
      let payment_amount := escrow.amount - refund_amount
      .ok { escrow := { escrow with
              status := EscrowStatus.Resolved
              quality_score := some quality_score
              refund_percentage := some refund_percentage }
            agent_reputation := resolve_reputation_update agent_reputation now
            api_reputation := resolve_reputation_update api_reputation now
            refund_amount := refund_amount
            payment_amount := payment_amount }

/-- update_agent_rep (lib.rs:434-461): applies the signed delta with
saturating u64 arithmetic, clamps to at most 1000, stamps last_active. The
accounts struct UpdateAgentRep (lib.rs:918-927) carries an `authority` signer
that the instruction never checks against anything, so the parameter is
unused, exactly as in the source. -/
def update_agent_rep (agent : AgentIdentity) (authority : Nat)
    (delta : Int) (now : Int) : Except MitamaError AgentIdentity :=
  let r :=
    if 0 ≤ delta then satAdd64 agent.reputation delta.toNat
    else satSub agent.reputation (-delta).toNat
  .ok { agent with reputation := min r 1000, last_active := now }

/-- A fresh EntityReputation as init_reputation creates it (lib.rs:861-879). -/
def freshReputation (entity : Nat) (now : Int) : EntityReputation where
  entity := entity
  entity_type := EntityType.Agent
  total_transactions := 0
  disputes_filed := 0
  disputes_won := 0
  disputes_partial := 0
  disputes_lost := 0
  average_quality_received := 0
  reputation_score := 500
  created_at := now
  last_updated := now

/-- A concrete Active escrow used by witnesses: payer 1, payee 2, amount
1000, expires at time 100. -/
def escrowA : Escrow where
  agent := 1
  api := 2
  amount := 1000
  status := EscrowStatus.Active
  created_at := 0
  expires_at := 100
  transaction_id := "tx-1"
  quality_score := none
  refund_percentage := none
  token_mint := none
  token_decimals := 9

/-- The same escrow already Resolved. -/
def escrowResolved : Escrow := { escrowA with status := EscrowStatus.Resolved }

/-- An EntityReputation with 10 transactions and 2 disputes filed. -/
def rep10x2 : EntityReputation :=
  { freshReputation 1 0 with total_transactions := 10, disputes_filed := 2 }

/-- An EntityReputation with 10 transactions and 5 disputes filed. -/
def rep10x5 : EntityReputation :=
  { freshReputation 1 0 with total_transactions := 10, disputes_filed := 5 }

/-- A concrete agent identity owned by key 1. -/
def agentA : AgentIdentity where
  owner := 1
  name := "agent-a"
  agent_type := AgentType.Service
  reputation := 500
  stake_amount := 100000000
  is_active := true
  created_at := 0
  last_active := 0
  total_escrows := 0
  successful_escrows := 0
  disputed_escrows := 0

/-- Helper shared by several proofs: with a u64-ranged amount and a
percentage at most 100, the checked refund computation of resolve_dispute
succeeds with the exact floor value, which is at most the amount. -/
theorem refund_amount_ok (amount pct : Nat) (ha : amount < U64_SIZE)
    (hp : pct ≤ 100) :
    resolve_refund_amount amount pct = .ok (amount * pct / 100) ∧
    amount * pct / 100 ≤ amount := by
  have hmul : amount * pct ≤ amount * 100 := Nat.mul_le_mul_left _ hp
  have hU : amount < 18446744073709551616 := ha
  have hle : amount * pct / 100 ≤ amount := by omega
  have hlt : amount * pct < 340282366920938463463374607431768211456 := by omega
  have hmod : amount * pct / 100 % U64_SIZE = amount * pct / 100 :=
    Nat.mod_eq_of_lt (lt_of_le_of_lt hle ha)
  exact ⟨by simp [resolve_refund_amount, checked_mul_u128, checked_div_u128,
    hlt, hmod], hle⟩

/-- C1: for every agreement amount below 2^64 and refund percentage in
[0,100], resolve_dispute succeeds past the checked wide arithmetic, computes
refund_amount = floor(amount * pct / 100), payment_amount = amount -
refund_amount, and the two add back to the amount exactly. -/
theorem C1_exact_split (e : Escrow) (ra rb : EntityReputation)
    (q pct : Nat) (now : Int)
    (hs : e.status = EscrowStatus.Active ∨ e.status = EscrowStatus.Disputed)
    (hq : q ≤ 100) (hp : pct ≤ 100) (ha : e.amount < U64_SIZE) :
    ∃ out, resolve_dispute e ra rb q pct true now = .ok out ∧
      out.refund_amount = e.amount * pct / 100 ∧
      out.payment_amount = e.amount - out.refund_amount ∧
      out.refund_amount + out.payment_amount = e.amount := by
  obtain ⟨hro, hle⟩ := refund_amount_ok e.amount pct ha hp
  have hres : resolve_dispute e ra rb q pct true now =
      .ok { escrow := { e with status := EscrowStatus.Resolved,
                               quality_score := some q,
                               refund_percentage := some pct }
            agent_reputation := resolve_reputation_update ra now
            api_reputation := resolve_reputation_update rb now
            refund_amount := e.amount * pct / 100
            payment_amount := e.amount - e.amount * pct / 100 } := by
    rcases hs with h | h <;> simp [resolve_dispute, h, hq, hp, hro]
  refine ⟨_, hres, rfl, rfl, ?_⟩
  show e.amount * pct / 100 + (e.amount - e.amount * pct / 100) = e.amount
  omega

/-- C1 witness: a concrete resolution of a 1000-lamport agreement at refund
percentage 33 splits into 330 + 670 = 1000. -/
theorem C1_witness :
    ∃ out, resolve_dispute escrowA (freshReputation 1 0) (freshReputation 2 0)
        50 33 true 5 = .ok out ∧
      out.refund_amount = escrowA.amount * 33 / 100 ∧
      out.payment_amount = escrowA.amount - out.refund_amount ∧
      out.refund_amount + out.payment_amount = escrowA.amount :=
  C1_exact_split escrowA (freshReputation 1 0) (freshReputation 2 0) 50 33 5
    (Or.inl rfl) (by decide) (by decide) (by decide)

/-- C2: once an escrow is Released or Resolved (the terminal states), every
transition attempt — release_funds, mark_disputed, resolve_dispute — fails
with InvalidStatus, the state-conflict error; in particular resolve_dispute
on an already-Resolved agreement fails, so settlement happens at most once.
Each embedded instruction fails before producing any updated state. -/
theorem C2_terminal_frozen (e : Escrow) (rep ra rb : EntityReputation)
    (caller bal q pct : Nat) (sig : Bool) (now : Int)
    (h : e.status = EscrowStatus.Released ∨ e.status = EscrowStatus.Resolved) :
    release_funds e caller now = .error .InvalidStatus ∧
    mark_disputed e rep caller bal now = .error .InvalidStatus ∧
    resolve_dispute e ra rb q pct sig now = .error .InvalidStatus := by
  rcases h with h | h <;>
    simp [release_funds, mark_disputed, resolve_dispute, h]

/-- C2 witness: all three transitions fail on a concrete Resolved escrow. -/
theorem C2_witness :
    release_funds escrowResolved 1 50 = .error .InvalidStatus ∧
    mark_disputed escrowResolved (freshReputation 1 0) 1 2000000 50 =
      .error .InvalidStatus ∧
    resolve_dispute escrowResolved (freshReputation 1 0) (freshReputation 2 0)
      50 50 true 50 = .error .InvalidStatus :=
  C2_terminal_frozen escrowResolved (freshReputation 1 0) (freshReputation 1 0)
    (freshReputation 2 0) 1 2000000 50 50 true 50 (Or.inr rfl)

/-- C3: a successful resolve_dispute does NOT apply the documented ledger
rules. At quality 90 and refund 0 on fresh reputations, the requester side
keeps average_quality_received = 0 and disputes_lost = 0 (only
total_transactions moves), while the in-file rule update_agent_reputation
would set the running mean to 90 and disputes_lost to 1, and
update_api_reputation would set the provider mean to 100 and disputes_won
to 1. The helpers implementing the rules are never called by the program. -/
theorem C3_resolve_skips_ledger_rules :
    ∃ out, resolve_dispute escrowA (freshReputation 1 0) (freshReputation 2 0)
        90 0 true 5 = .ok out ∧
      out.agent_reputation.total_transactions = 1 ∧
      out.agent_reputation.average_quality_received = 0 ∧
      out.agent_reputation.disputes_lost = 0 ∧
      out.api_reputation.average_quality_received = 0 ∧
      out.api_reputation.disputes_won = 0 ∧
      (update_agent_reputation (freshReputation 1 0) 90 0 5).average_quality_received
        = 90 ∧
      (update_agent_reputation (freshReputation 1 0) 90 0 5).disputes_lost = 1 ∧
      (update_api_reputation (freshReputation 2 0) 0 5).average_quality_received
        = 100 ∧
      (update_api_reputation (freshReputation 2 0) 0 5).disputes_won = 1 := by
  refine ⟨_, rfl, ?_, ?_, ?_, ?_, ?_, ?_, ?_, ?_, ?_⟩ <;> decide

/-- C4 counterexample: resolve_dispute accepts quality_score = 95 together
with refund_percentage = 100 and applies the full refund, although the tier
function maps quality 95 to refund 0 — the refund percentage applied by
resolve is not the tiered settlement function of the quality score. -/
theorem C4_cex :
    ∃ out, resolve_dispute escrowA (freshReputation 1 0) (freshReputation 2 0)
        95 100 true 5 = .ok out ∧
      out.escrow.refund_percentage = some 100 ∧
      out.refund_amount = 1000 ∧
      calculate_refund_from_quality 95 = 0 ∧
      (100 : Nat) ≠ 0 := by
  refine ⟨_, rfl, ?_, ?_, ?_, ?_⟩ <;> decide

/-- C4 amended: calculate_refund_from_quality implements the tier table
exactly (0-49 yields 100, 50-64 yields 75, 65-79 yields 35, 80-100 yields 0,
no interpolation), matching the four spec examples; but resolve_dispute
consumes refund_percentage as an independent input validated only to be at
most 100 and records whatever value was passed, never consulting the tier
function. -/
theorem C4_tier_table :
    (∀ q : Nat, q ≤ 100 →
      calculate_refund_from_quality q =
        if q < 50 then 100 else if q < 65 then 75 else if q < 80 then 35 else 0) ∧
    calculate_refund_from_quality 40 = 100 ∧
    calculate_refund_from_quality 60 = 75 ∧
    calculate_refund_from_quality 70 = 35 ∧
    calculate_refund_from_quality 95 = 0 ∧
    (∀ (e : Escrow) (ra rb : EntityReputation) (q pct : Nat) (now : Int),
      e.status = EscrowStatus.Active → q ≤ 100 → pct ≤ 100 → e.amount < U64_SIZE →
      ∃ out, resolve_dispute e ra rb q pct true now = .ok out ∧
        out.escrow.refund_percentage = some pct) := by
  refine ⟨?_, rfl, rfl, rfl, rfl, ?_⟩
  · intro q hq
    unfold calculate_refund_from_quality
    split_ifs <;> omega
  · intro e ra rb q pct now hs hq hp ha
    obtain ⟨hro, -⟩ := refund_amount_ok e.amount pct ha hp
    have hres : resolve_dispute e ra rb q pct true now =
        .ok { escrow := { e with status := EscrowStatus.Resolved,
                                 quality_score := some q,
                                 refund_percentage := some pct }
              agent_reputation := resolve_reputation_update ra now
              api_reputation := resolve_reputation_update rb now
              refund_amount := e.amount * pct / 100
              payment_amount := e.amount - e.amount * pct / 100 } := by
      simp [resolve_dispute, hs, hq, hp, hro]
    exact ⟨_, hres, rfl⟩

/-- C4 witness: the tier table holds at quality 40, and a resolution records
the independently passed refund percentage 100 alongside quality 40. -/
theorem C4_witness :
    calculate_refund_from_quality 40 =
      (if (40 : Nat) < 50 then 100 else if (40 : Nat) < 65 then 75
       else if (40 : Nat) < 80 then 35 else 0) ∧
    (∃ out, resolve_dispute escrowA (freshReputation 1 0) (freshReputation 2 0)
        40 100 true 5 = .ok out ∧
      out.escrow.refund_percentage = some 100) :=
  ⟨C4_tier_table.1 40 (by decide),
   C4_tier_table.2.2.2.2.2 escrowA (freshReputation 1 0) (freshReputation 2 0)
     40 100 5 rfl (by decide) (by decide) (by decide)⟩

/-- C5 counterexample: on [10, 84, 85, 88, 90] with max_score_deviation 15
the code returns 88 (element at index 2 of the four filtered scores
[84, 85, 88, 90]), not the 85 the claim states. -/
theorem C5_cex :
    calculate_consensus_score [10, 84, 85, 88, 90] 15 = .ok 88 ∧
    (88 : Nat) ≠ 85 :=
  ⟨rfl, by decide⟩

/-- C5 amended: for three or more scores the consensus computation is
exactly the described algorithm — sort ascending, middle sorted element as
median, filter by absolute distance at most max_score_deviation, fail with
NoConsensusReached (distinct from InsufficientOracleConsensus raised for
fewer than two inputs) unless at least two survive, then the middle sorted
element of the filtered subset — and the example [10, 84, 85, 88, 90] with
deviation 15 yields 88, not 85. -/
theorem C5_consensus :
    (∀ (scores : List Nat) (dev : Nat), 3 ≤ scores.length →
      calculate_consensus_score scores dev = consensusClaimSpec scores dev) ∧
    (∀ (scores : List Nat) (dev : Nat), scores.length < 2 →
      calculate_consensus_score scores dev = .error .InsufficientOracleConsensus) ∧
    MitamaError.InsufficientOracleConsensus ≠ MitamaError.NoConsensusReached ∧
    calculate_consensus_score [10, 84, 85, 88, 90] 15 = .ok 88 := by
  have habs : ∀ s m : Nat,
      (if s > m then s - m else m - s) = Nat.dist s m := by
    intro s m
    simp only [Nat.dist]
    split <;> omega
  refine ⟨?_, ?_, by decide, rfl⟩
  · intro scores dev h3
    have h1 : ¬ scores.length < 2 := by omega
    have h2 : ¬ scores.length = 2 := by omega
    unfold calculate_consensus_score consensusClaimSpec
    simp only [h1, h2, if_false, habs]
  · intro scores dev h
    unfold calculate_consensus_score
    simp [h]

/-- C5 witness: the code agrees with the described algorithm on the concrete
five-score input, and a singleton input raises the insufficient-count
error. -/
theorem C5_witness :
    calculate_consensus_score [10, 84, 85, 88, 90] 15 =
      consensusClaimSpec [10, 84, 85, 88, 90] 15 ∧
    calculate_consensus_score [42] 7 = .error .InsufficientOracleConsensus :=
  ⟨C5_consensus.1 [10, 84, 85, 88, 90] 15 (by decide),
   C5_consensus.2.1 [42] 7 (by decide)⟩

/-- C6 counterexample: a non-payer caller releasing an Active escrow before
expiry fails with TimeLockNotExpired, a timing error, which is not the
Unauthorized error the claim names. -/
theorem C6_cex :
    release_funds escrowA 2 50 = .error .TimeLockNotExpired ∧
    MitamaError.TimeLockNotExpired ≠ MitamaError.Unauthorized :=
  ⟨rfl, by decide⟩

/-- C6 amended: on an Active agreement, a caller other than the payer
invoking release_funds while now < expires_at fails with TimeLockNotExpired
(a timing error, not an authorization error); the payer releases
unconditionally, and any caller succeeds once now >= expires_at, in both
cases transferring the full amount and transitioning to Released. -/
theorem C6_release_auth (e : Escrow) (caller : Nat) (now : Int)
    (h : e.status = EscrowStatus.Active) :
    (caller ≠ e.agent → now < e.expires_at →
      release_funds e caller now = .error .TimeLockNotExpired) ∧
    (caller = e.agent →
      release_funds e caller now =
        .ok ({ e with status := EscrowStatus.Released }, e.amount)) ∧
    (e.expires_at ≤ now →
      release_funds e caller now =
        .ok ({ e with status := EscrowStatus.Released }, e.amount)) := by
  refine ⟨fun h1 h2 => ?_, fun h1 => ?_, fun h1 => ?_⟩
  · simp [release_funds, h, h1, h2]
  · simp [release_funds, h, h1]
  · by_cases hc : caller = e.agent
    · simp [release_funds, h, hc]
    · simp [release_funds, h, hc, h1, not_lt.mpr h1]

/-- C6 witness: before expiry a stranger fails with TimeLockNotExpired while
the payer succeeds, on the same concrete escrow. -/
theorem C6_witness :
    release_funds escrowA 2 50 = .error .TimeLockNotExpired ∧
    release_funds escrowA 1 50 =
      .ok ({ escrowA with status := EscrowStatus.Released }, escrowA.amount) :=
  ⟨(C6_release_auth escrowA 2 50 rfl).1 (by decide) (by decide),
   (C6_release_auth escrowA 1 50 rfl).2.1 rfl⟩

/-- C7: update_agent_rep performs no authorization check whatsoever — for
every agent, every authority key and every delta it succeeds, the unchecked
authority signer included — so the claim that unauthorized callers fail is
violated; the clamp half of the claim does hold: the stored reputation is
always at most 1000 (and at least 0, being a Nat). The concrete conjuncts
show a caller distinct from the agent owner lowering the reputation. -/
theorem C7_no_auth_check :
    (∀ (a : AgentIdentity) (authority : Nat) (delta now : Int),
      ∃ a2, update_agent_rep a authority delta now = .ok a2 ∧
        a2.reputation ≤ 1000) ∧
    (2 : Nat) ≠ agentA.owner ∧
    update_agent_rep agentA 2 (-100) 7 =
      .ok { agentA with reputation := 400, last_active := 7 } := by
  refine ⟨fun a authority delta now => ⟨_, rfl, ?_⟩, by decide, by rfl⟩
  exact Nat.min_le_right _ _

/-- C8: for every EntityReputation whose disputes_filed * 100 stays in u64
range, the dispute cost is BASE_DISPUTE_COST times the tier multiplier of
disputeRate = disputes_filed * 100 / total_transactions (base cost when
total_transactions = 0): 1 for rate 0-20, 2 for 21-40, 5 for 41-60, 10
above; in particular 10 transactions with 2 disputes filed costs the base,
and with 5 disputes filed costs five times the base. -/
theorem C8_dispute_cost (rep : EntityReputation)
    (hof : rep.disputes_filed * 100 < U64_SIZE) :
    calculate_dispute_cost rep =
      BASE_DISPUTE_COST *
        (if rep.total_transactions = 0 then 1
         else if rep.disputes_filed * 100 / rep.total_transactions ≤ 20 then 1
         else if rep.disputes_filed * 100 / rep.total_transactions ≤ 40 then 2
         else if rep.disputes_filed * 100 / rep.total_transactions ≤ 60 then 5
         else 10) ∧
    calculate_dispute_cost rep10x2 = BASE_DISPUTE_COST ∧
    calculate_dispute_cost rep10x5 = 5 * BASE_DISPUTE_COST := by
  refine ⟨?_, by rfl, by rfl⟩
  have hmod : rep.disputes_filed * 100 % U64_SIZE = rep.disputes_filed * 100 :=
    Nat.mod_eq_of_lt hof
  simp only [calculate_dispute_cost, satMul64, BASE_DISPUTE_COST, U64_MAX, hmod]
  split_ifs <;> omega

/-- C8 witness: the tier formula instantiated at the 10-transaction,
2-dispute entity gives the base cost. -/
theorem C8_witness :
    calculate_dispute_cost rep10x2 = BASE_DISPUTE_COST :=
  (C8_dispute_cost rep10x2 (by decide)).2.1

/-- C9: for every combination of the EntityReputation counters, the
recomputed composite reputation score is at most 1000 (and at least 0, the
values being Nat): the fresh-entity branch returns 500 and the general
branch is capped by the final min with 1000. -/
theorem C9_reputation_bounded (rep : EntityReputation) :
    calculate_reputation_score rep ≤ 1000 := by
  unfold calculate_reputation_score
  split
  · omega
  · exact Nat.min_le_right _ _

/-- C10: a successful mark_disputed leaves the payer balance and the escrow
amount unchanged — the dispute cost is only a minimum-balance precondition,
never deducted — and the only mutations are the escrow status becoming
Disputed and the payer's disputes_filed counter incrementing by one
(saturating); every other field of both records is untouched. -/
theorem C10_mark_disputed_frame (e : Escrow) (rep : EntityReputation)
    (caller bal : Nat) (now : Int)
    (h1 : e.status = EscrowStatus.Active) (h2 : caller = e.agent)
    (h3 : now < e.expires_at) (h4 : calculate_dispute_cost rep ≤ bal) :
    mark_disputed e rep caller bal now =
      .ok ({ e with status := EscrowStatus.Disputed },
           { rep with disputes_filed := satAdd64 rep.disputes_filed 1 },
           bal) := by
  simp [mark_disputed, h1, h2, h3, Nat.not_lt.mpr h4]

/-- C10 witness: a concrete dispute filing flips the status, bumps the
filed counter to 1 and returns the 2000000-lamport balance unchanged. -/
theorem C10_witness :
    mark_disputed escrowA (freshReputation 1 0) 1 2000000 50 =
      .ok ({ escrowA with status := EscrowStatus.Disputed },
           { freshReputation 1 0 with
               disputes_filed := satAdd64 (freshReputation 1 0).disputes_filed 1 },
           2000000) :=
  C10_mark_disputed_frame escrowA (freshReputation 1 0) 1 2000000 50
    rfl rfl (by decide) (by decide)

end Mitama
